import Mathlib

/-!
Verification development for the medical report search engine (`app.py`):
a Streamlit + Whoosh prototype that indexes report documents
(doc_id, title, patient_id, date, content) and serves ranked, filtered
free-text search. Dates are modelled at day granularity as signed day
offsets from 1900-01-01 (so `date19000101 = 0`), since the code only
compares dates with `==`, `<` and `>`. Ranked retrieval and query parsing
are delegated by the code to the Whoosh library (not part of the sources);
those pieces are modelled from the specification as marked.
-/

namespace MedSearch

/-- A stored document, per the Whoosh schema in `ensure_index`
(app.py lines 54-60): fields doc_id, title, patient_id, date, content,
all stored. -/
structure Doc where
  doc_id : String
  title : String
  patient_id : String
  date : Int
  content : String
deriving DecidableEq

/-- A search hit: the stored fields of a matched document together with its
relevance score. The `date` field is optional because the post-filter loop
(app.py lines 213-227) defensively checks `hit.get("date") is None`. -/
structure Hit where
  doc_id : String
  title : String
  patient_id : String
  date : Option Int
  content : String
  score : Nat
deriving DecidableEq

/-- Modelled from the spec: the Tokenizer/Analyzer (Whoosh's
`StemmingAnalyzer`, not in the sources) splits on whitespace, drops empty
tokens and casefolds. Stemming is omitted from the model; no claim below
depends on the stem function. -/
def tokenize (s : String) : List String :=
  ((s.split (fun c => c.isWhitespace)).filter (fun t => t ≠ "")).map String.toLower

/-- The three searchable fields handed to `MultifieldParser`
(app.py line 207): title, content, patient_id. -/
inductive SField where
  | title : SField
  | content : SField
  | patientId : SField
deriving DecidableEq

/-- The field list `["title", "content", "patient_id"]` from app.py line 207. -/
def searchFields : List SField := [SField.title, SField.content, SField.patientId]

/-- Modelled from the spec: the terms a document exposes under each field.
Text fields are analyzed; `patient_id` is a Whoosh `ID` field indexed as a
single exact term. -/
def fieldTerms (f : SField) (d : Doc) : List String :=
  match f with
  | SField.title => tokenize d.title
  | SField.content => tokenize d.content
  | SField.patientId => [d.patient_id]

/-- Modelled from the spec: query text is split into whitespace-separated
terms (analyzed like field text). -/
def queryTerms (q : String) : List String := tokenize q

/-- Modelled from the spec: `MultifieldParser(fields, group=OrGroup)`
(app.py lines 207-208, parsing done inside Whoosh) turns the query into a
set of (field, term) disjuncts: one disjunct per term per listed field. -/
def parseQuery (fields : List SField) (q : String) : List (SField × String) :=
  (queryTerms q).flatMap (fun t => fields.map (fun f => (f, t)))

/-- Modelled from the spec: a parsed query, being a disjunction, matches a
document when some disjunct's term appears among that field's terms. -/
def evalQuery (disjuncts : List (SField × String)) (d : Doc) : Bool :=
  disjuncts.any (fun p => (fieldTerms p.1 d).contains p.2)

/-- All terms of a document across the searchable fields, used by the
modelled scorer. -/
def allDocTerms (d : Doc) : List String :=
  tokenize d.title ++ tokenize d.content ++ [d.patient_id]

/-- Modelled from the spec: the Scorer assigns a relevance score from term
statistics; the exact formula is an implementation choice. The model counts
occurrences of query terms across the searchable fields. -/
def scoreDoc (q : String) (d : Doc) : Nat :=
  ((queryTerms q).map (fun t => (allDocTerms d).count t)).sum

/-- The rank order of the result sequence: highest score first, ties broken
by doc_id ascending (spec contract for the Scorer/Ranker). -/
def rankRel (a b : Hit) : Prop :=
  b.score < a.score ∨ (a.score = b.score ∧ a.doc_id ≤ b.doc_id)

instance : DecidableRel rankRel := fun a b => by
  unfold rankRel
  infer_instance

/-- Build the hit for a matched document, carrying its stored fields and
score. Documents indexed by the app always carry a date (app.py line 171). -/
def mkHit (q : String) (d : Doc) : Hit :=
  ⟨d.doc_id, d.title, d.patient_id, some d.date, d.content, scoreDoc q d⟩

/-- Modelled from the spec: `searcher.search(q, limit=k)` (app.py line 209,
ranking done inside Whoosh) returns the matching documents ordered highest
score first, ties by doc_id ascending, capped at `k`. -/
def rankedResults (corpus : List Doc) (q : String) (k : Nat) : List Hit :=
  (((corpus.filter (fun d => evalQuery (parseQuery searchFields q) d)).map
      (mkHit q)).insertionSort rankRel).take k

/-- Patient-id post-filter, app.py lines 218-220: when the filter string is
non-empty (Python truthiness), keep a hit only when its stored patient_id
equals the filter case-insensitively. -/
def passesPid (pid : String) (h : Hit) : Bool :=
  if pid = "" then true else h.patient_id.toLower == pid.toLower

/-- Lower-bound date post-filter, app.py lines 222-224: when a lower bound
is set, a hit with no date, or dated strictly before the bound, is skipped. -/
def passesDateFrom (df : Option Int) (h : Hit) : Bool :=
  match df with
  | none => true
  | some d0 =>
    match h.date with
    | none => false
    | some d => decide (¬ d < d0)

/-- Upper-bound date post-filter, app.py lines 225-227: when an upper bound
is set, a hit with no date, or dated strictly after the bound, is skipped. -/
def passesDateTo (dt : Option Int) (h : Hit) : Bool :=
  match dt with
  | none => true
  | some d1 =>
    match h.date with
    | none => false
    | some d => decide (¬ d1 < d)

/-- The post-filter loop over ranked results, app.py lines 211-228: each hit
is kept iff it passes the patient filter and both date bounds; order is
untouched. -/
def postFilter (pid : String) (df dt : Option Int) (l : List Hit) : List Hit :=
  l.filter (fun h => passesPid pid h && passesDateFrom df h && passesDateTo dt h)

/-- The sentinel date 1900-01-01, as a day offset from itself. -/
def date19000101 : Int := 0

/-- App.py lines 199-201: a `date_from` equal to 1900-01-01 is replaced by
None ("allow empty date selection"); nothing else is changed, and `date_to`
is not normalized. -/
def normalizeDateFrom (df : Option Int) : Option Int :=
  if df = some date19000101 then none else df

/-- Outcome of the Search button handler: the empty-query warning (app.py
line 204), the non-positive-limit validation failure raised inside the
delegated search call, or the filtered result list. -/
inductive SearchOutcome where
  | warnEmptyQuery : SearchOutcome
  | errorLimit : SearchOutcome
  | results : List Hit → SearchOutcome
deriving DecidableEq

/-- The guard `not query_text.strip()` of app.py line 203: a string strips
to empty exactly when every character is whitespace. -/
def isBlank (s : String) : Bool :=
  s.data.all (fun c => c.isWhitespace)

/-- The Search button handler, app.py lines 199-228: normalize the
`date_from` sentinel, reject a query that strips to empty, then run the
ranked search and post-filter it. Modelled from the spec for the delegated
call: `searcher.search(q, limit=k)` (app.py line 209) runs inside Whoosh,
which raises `ValueError("limit must be >= 1")` for a non-positive limit
(the spec's "`k` must be a positive integer"); that failure reaches the
caller before any result is produced and is the `errorLimit` outcome. With
the limit a natural number, zero is the non-positive case. -/
def searchReports (corpus : List Doc) (q : String) (k : Nat) (pid : String)
    (df dt : Option Int) : SearchOutcome :=
  let df1 := normalizeDateFrom df
  if isBlank q = true then SearchOutcome.warnEmptyQuery
  else if k = 0 then SearchOutcome.errorLimit
  else SearchOutcome.results (postFilter pid df1 dt (rankedResults corpus q k))

/-- The hits carried by a search outcome (a failure carries none). -/
def resultsOf : SearchOutcome → List Hit
  | SearchOutcome.warnEmptyQuery => []
  | SearchOutcome.errorLimit => []
  | SearchOutcome.results l => l

/-- State of the persisted index location `whoosh_index`: whether the
directory exists, whether its contents are unreadable by `index.open_dir`,
and the committed documents. -/
structure FsState where
  dirExists : Bool
  corrupt : Bool
  docs : List Doc
deriving DecidableEq

/-- A freshly created empty index with the fixed schema. -/
def emptyIndex : FsState := ⟨true, false, []⟩

/-- The function `ensure_index`, app.py lines 52-72: if the directory is
absent, create an empty index; if opening raises (corrupt state), delete
the files and recreate empty — silently, the bare `except:` branch surfaces
no message; otherwise open the existing index. The second component is the
list of warnings surfaced to the caller. -/
def ensureIndex (s : FsState) : FsState × List String :=
  if s.dirExists = false then (emptyIndex, [])
  else if s.corrupt = true then (emptyIndex, [])
  else (s, [])

/-- The Rebuild-index button handler, app.py lines 180-187: if the index
directory exists, remove every file and the directory itself, then call
`ensure_index` to recreate it. -/
def rebuildIndex (s : FsState) : FsState :=
  let s1 := if s.dirExists = true then (⟨false, false, []⟩ : FsState) else s
  (ensureIndex s1).1

/-- The search handler viewed as a state transition: searching reads the
index and never writes it. -/
def searchStep (s : FsState) (q : String) (k : Nat) (pid : String)
    (df dt : Option Int) : FsState × SearchOutcome :=
  (s, searchReports s.docs q k pid df dt)

/-- Doc-id construction, app.py lines 160-162: the uploaded file's name,
an underscore, and a UTC timestamp `strftime("%Y%m%d%H%M%S%f")`
(20 digits). -/
def mkDocId (fname ts : String) : String := fname ++ "_" ++ ts

/-- The documents added by one pass of the indexing loop (app.py lines
143-173): each uploaded file, paired with the timestamp drawn for it,
becomes a document with the form's title, patient id and date. -/
def batchDocs (files : List (String × String)) (tss : List String)
    (title pid : String) (date : Int) : List Doc :=
  (files.zip tss).map (fun p => ⟨mkDocId p.1.1 p.2, title, pid, date, p.1.2⟩)

/-- The doc_ids assigned during one indexing pass. -/
def assignedIds (files : List (String × String)) (tss : List String) : List String :=
  (files.zip tss).map (fun p => mkDocId p.1.1 p.2)

/-- Outcome of the Index button handler: the no-file warning (app.py line
138), the empty-title warning (line 140), or success with the assigned
doc_ids. -/
inductive IndexOutcome where
  | warnNoFiles : IndexOutcome
  | warnEmptyTitle : IndexOutcome
  | ok : List String → IndexOutcome
deriving DecidableEq

/-- The Index button handler, app.py lines 136-177: warn when no file is
uploaded, warn when the title is empty (Python falsiness of the string) —
in both cases no writer is opened and the store is untouched — otherwise
add one document per file and commit the batch. `files` pairs each file
name with its extracted text; `tss` are the timestamps drawn by the loop. -/
def indexBatch (files : List (String × String)) (tss : List String)
    (title pid : String) (date : Int) (s : List Doc) : List Doc × IndexOutcome :=
  if files = [] then (s, IndexOutcome.warnNoFiles)
  else if title = "" then (s, IndexOutcome.warnEmptyTitle)
  else (s ++ batchDocs files tss title pid date, IndexOutcome.ok (assignedIds files tss))

instance : IsTotal Hit rankRel := by
  constructor
  intro a b
  unfold rankRel
  rcases lt_trichotomy a.score b.score with h | h | h
  · exact Or.inr (Or.inl h)
  · rcases le_total a.doc_id b.doc_id with h2 | h2
    · exact Or.inl (Or.inr ⟨h, h2⟩)
    · exact Or.inr (Or.inr ⟨h.symm, h2⟩)
  · exact Or.inl (Or.inl h)

instance : IsTrans Hit rankRel := by
  constructor
  intro a b c hab hbc
  unfold rankRel at *
  rcases hab with h1 | ⟨h1, h1'⟩
  · rcases hbc with h2 | ⟨h2, _⟩
    · exact Or.inl (h2.trans h1)
    · exact Or.inl (h2 ▸ h1)
  · rcases hbc with h2 | ⟨h2, h2'⟩
    · exact Or.inl (h1 ▸ h2)
    · exact Or.inr ⟨h1.trans h2, h1'.trans h2'⟩

/-- Helper: the search results, whatever the filters, form a sublist of the
sorted ranked list, hence stay sorted. -/
theorem postFilter_sublist (pid : String) (df dt : Option Int) (l : List Hit) :
    List.Sublist (postFilter pid df dt l) l :=
  List.filter_sublist l

/-- C7: the Rebuild-index button yields an empty index from every state, and
rebuilding again immediately succeeds and yields the same empty index. -/
theorem rebuildIndex_idempotent (s : FsState) :
    rebuildIndex s = emptyIndex ∧ rebuildIndex (rebuildIndex s) = emptyIndex := by
  have h : ∀ t : FsState, rebuildIndex t = emptyIndex := by
    intro t
    cases t with
    | mk de c d =>
      cases de <;> cases c <;> simp [rebuildIndex, ensureIndex, emptyIndex]
  exact ⟨h s, h (rebuildIndex s)⟩

/-- C8 (amended): `ensure_index` always returns a usable index — the
directory exists afterwards and is not corrupt; when the location is absent
it creates an empty index; when the persisted state is corrupt it discards
it and recreates an empty index without raising; but the recovery is
silent — no warning is surfaced to the caller. -/
theorem ensureIndex_recovers (s : FsState) :
    (ensureIndex s).1.dirExists = true
    ∧ (ensureIndex s).1.corrupt = false
    ∧ (ensureIndex s).2 = []
    ∧ (s.dirExists = false → ensureIndex s = (emptyIndex, []))
    ∧ (s.corrupt = true → (ensureIndex s).1 = emptyIndex) := by
  cases s with
  | mk de c d =>
    cases de <;> cases c <;> simp [ensureIndex, emptyIndex]

/-- C8 witness: on the absent location, `ensure_index` creates the empty
index and surfaces nothing. -/
theorem ensureIndex_recovers_witness :
    ensureIndex ⟨false, false, []⟩ = (emptyIndex, []) :=
  (ensureIndex_recovers ⟨false, false, []⟩).2.2.2.1 rfl

/-- C8 counterexample: on a present-but-corrupt index state, `ensure_index`
recreates an empty index yet surfaces no warning at all, contrary to the
claim that a warning is surfaced to the caller. -/
theorem ensureIndex_corrupt_silent :
    (ensureIndex ⟨true, true, []⟩).1 = emptyIndex
    ∧ (ensureIndex ⟨true, true, []⟩).2 = [] := by
  constructor <;> rfl

/-- Sample document A from the spec's scenario (dates as day offsets from
1900-01-01; only their order matters to the filters). -/
def docA : Doc := ⟨"A", "Chest Xray", "P1", 5, "fracture of left rib"⟩

/-- Sample document B from the spec's scenario. -/
def docB : Doc := ⟨"B", "Blood Panel", "P2", 41, "normal glucose levels"⟩

/-- The two-document sample corpus from the spec's scenario. -/
def corpusSample : List Doc := [docA, docB]

/-- C1: with a non-empty patient-id filter X, search returns exactly the
rank-order-preserving subsequence of the unfiltered search restricted to
hits whose stored patient_id equals X case-insensitively; the filter layer
never re-ranks and never adds documents. -/
theorem pidFilter_subsequence (corpus : List Doc) (q : String) (k : Nat)
    (X : String) (hq : isBlank q = false) (hX : X ≠ "") :
    resultsOf (searchReports corpus q k X none none)
      = (resultsOf (searchReports corpus q k "" none none)).filter
          (fun h => h.patient_id.toLower == X.toLower)
    ∧ List.Sublist (resultsOf (searchReports corpus q k X none none))
        (resultsOf (searchReports corpus q k "" none none)) := by
  by_cases hk : k = 0
  · simp [searchReports, normalizeDateFrom, hq, hk, resultsOf]
  · have e1 : searchReports corpus q k X none none
        = SearchOutcome.results (postFilter X none none (rankedResults corpus q k)) := by
      simp [searchReports, normalizeDateFrom, hq, hk]
    have e2 : searchReports corpus q k "" none none
        = SearchOutcome.results (postFilter "" none none (rankedResults corpus q k)) := by
      simp [searchReports, normalizeDateFrom, hq, hk]
    have e3 : postFilter "" none none (rankedResults corpus q k)
        = rankedResults corpus q k := by
      simp [postFilter, passesPid, passesDateFrom, passesDateTo]
    have e4 : postFilter X none none (rankedResults corpus q k)
        = (rankedResults corpus q k).filter
            (fun h => h.patient_id.toLower == X.toLower) := by
      simp [postFilter, passesPid, passesDateFrom, passesDateTo, hX]
    rw [e1, e2, resultsOf, resultsOf, e3, e4]
    exact ⟨rfl, List.filter_sublist _⟩

/-- C1 witness: on the spec's sample corpus, filtering the "fracture"
search by patient id "p1" equals the case-insensitive restriction of the
unfiltered search. -/
theorem pidFilter_subsequence_witness :
    resultsOf (searchReports corpusSample "fracture" 10 "p1" none none)
      = (resultsOf (searchReports corpusSample "fracture" 10 "" none none)).filter
          (fun h => h.patient_id.toLower == "p1".toLower) :=
  (pidFilter_subsequence corpusSample "fracture" 10 "p1" (by decide) (by decide)).1

/-- C2: for a document with a stored date, the date post-filter passes it
iff the date lies between the bounds, both bounds inclusive at day
granularity; an absent bound imposes no constraint; a date exactly on a
bound passes that bound, and a date one day outside either bound fails it. -/
theorem dateFilter_inclusive (df dt d : Int) (h : Hit) (hd : h.date = some d) :
    ((passesDateFrom (some df) h && passesDateTo (some dt) h) = true
      ↔ (df ≤ d ∧ d ≤ dt))
    ∧ passesDateFrom none h = true
    ∧ passesDateTo none h = true
    ∧ passesDateFrom (some d) h = true
    ∧ passesDateTo (some d) h = true
    ∧ passesDateFrom (some (d + 1)) h = false
    ∧ passesDateTo (some (d - 1)) h = false := by
  refine ⟨?_, rfl, rfl, ?_, ?_, ?_, ?_⟩ <;>
    simp [passesDateFrom, passesDateTo, hd]

/-- C2 witness: a hit dated day 7 passes the inclusive range [5, 10]. -/
theorem dateFilter_inclusive_witness :
    (passesDateFrom (some 5) ⟨"A", "t", "P1", some 7, "c", 0⟩
      && passesDateTo (some 10) ⟨"A", "t", "P1", some 7, "c", 0⟩) = true :=
  ((dateFilter_inclusive 5 10 7 ⟨"A", "t", "P1", some 7, "c", 0⟩ rfl).1).mpr
    (by decide)

/-- C10: a `date_from` equal to the sentinel 1900-01-01 is silently dropped
— the search behaves exactly as with no lower bound, so a document dated
before the sentinel's successor still passes — while any other `date_from`
survives normalization and imposes its inclusive lower bound, and a
`date_to` equal to the sentinel is not dropped and still constrains. -/
theorem dateFrom_sentinel (corpus : List Doc) (q : String) (k : Nat)
    (pid : String) (dt : Option Int) (df d : Int) (h : Hit) :
    searchReports corpus q k pid (some date19000101) dt
      = searchReports corpus q k pid none dt
    ∧ (df ≠ date19000101 → normalizeDateFrom (some df) = some df)
    ∧ normalizeDateFrom (some date19000101) = none
    ∧ (h.date = some d → passesDateFrom (some df) h = decide (df ≤ d))
    ∧ (h.date = some d → passesDateTo (some date19000101) h
        = decide (d ≤ date19000101)) := by
  refine ⟨?_, ?_, rfl, ?_, ?_⟩
  · simp [searchReports, normalizeDateFrom]
  · intro hdf
    simp [normalizeDateFrom, hdf]
  · intro hd
    simp only [passesDateFrom, hd]
    exact decide_eq_decide.mpr (by omega)
  · intro hd
    simp only [passesDateTo, hd]
    exact decide_eq_decide.mpr (by omega)

/-- C10 witness: a hit dated day 2 fails the non-sentinel lower bound 3,
which the normalization kept in force. -/
theorem dateFrom_sentinel_witness :
    passesDateFrom (some 3) ⟨"B", "t", "P2", some 2, "c", 0⟩ = false :=
  ((dateFrom_sentinel [] "x" 1 "" none 3 2 ⟨"B", "t", "P2", some 2, "c", 0⟩).2.2.2.1
      rfl).trans (by decide)

/-- C3: the result sequence of every search is sorted by score descending
with ties broken by doc_id ascending, and two searches with identical
corpus, query and limit (and filters) return exactly the same sequence. -/
theorem search_sorted_deterministic (corpus : List Doc) (q : String) (k : Nat)
    (pid : String) (df dt : Option Int) :
    List.Sorted rankRel (resultsOf (searchReports corpus q k pid df dt))
    ∧ searchReports corpus q k pid df dt = searchReports corpus q k pid df dt := by
  refine ⟨?_, rfl⟩
  by_cases hq : isBlank q = true
  · simp [searchReports, hq, resultsOf]
  · by_cases hk : k = 0
    · simp [searchReports, hq, hk, resultsOf]
    · have e : searchReports corpus q k pid df dt
        = SearchOutcome.results (postFilter pid (normalizeDateFrom df) dt
            (rankedResults corpus q k)) := by
        simp [searchReports, hq, hk]
      rw [e]
      have hsort := List.sorted_insertionSort rankRel
        ((corpus.filter (fun d => evalQuery (parseQuery searchFields q) d)).map (mkHit q))
      have htake : List.Sorted rankRel (rankedResults corpus q k) :=
        List.Pairwise.sublist (List.take_sublist _ _) hsort
      exact List.Pairwise.sublist (postFilter_sublist _ _ _ _) htake

/-- C9: the parsed multi-term query is a disjunction across all
whitespace-separated terms and across the three searchable fields — a
document is a candidate match iff some query term appears among some
searchable field's terms. -/
theorem query_or_semantics (q : String) (d : Doc) :
    evalQuery (parseQuery searchFields q) d = true
      ↔ ∃ t ∈ queryTerms q, ∃ f ∈ searchFields, t ∈ fieldTerms f d := by
  simp only [evalQuery, parseQuery, List.any_eq_true, List.mem_flatMap, List.mem_map]
  constructor
  · rintro ⟨p, ⟨t, ht, f, hf, rfl⟩, hc⟩
    exact ⟨t, ht, f, hf, by simpa using hc⟩
  · rintro ⟨t, ht, f, hf, hmem⟩
    exact ⟨(f, t), ⟨t, ht, f, hf, rfl⟩, by simpa using hmem⟩

/-- C4: a query that is empty or whitespace-only makes the Search handler
fail with the validation warning for every limit, and a non-positive limit
makes the search fail with a validation error for every query (the
empty-query warning when the query is also blank, since that guard runs
first, otherwise the limit error raised inside the delegated search call);
in every failing case no search is performed and the index state is
returned unchanged. -/
theorem search_validation (s : FsState) (q : String) (k : Nat) (pid : String)
    (df dt : Option Int) :
    (isBlank q = true → searchStep s q k pid df dt = (s, SearchOutcome.warnEmptyQuery))
    ∧ (k = 0 → searchStep s q k pid df dt = (s, SearchOutcome.warnEmptyQuery)
        ∨ searchStep s q k pid df dt = (s, SearchOutcome.errorLimit)) := by
  constructor
  · intro hq
    simp [searchStep, searchReports, hq]
  · intro hk
    by_cases hq : isBlank q = true
    · exact Or.inl (by simp [searchStep, searchReports, hq])
    · exact Or.inr (by simp [searchStep, searchReports, hq, hk])

/-- C4 witness: a whitespace-only query with limit 5 fails with the warning
and the state is untouched, and the valid query "glucose" with limit 0
fails with a validation outcome rather than searching. -/
theorem search_validation_witness :
    searchStep ⟨true, false, []⟩ "  " 5 "" none none
      = (⟨true, false, []⟩, SearchOutcome.warnEmptyQuery)
    ∧ (searchStep ⟨true, false, corpusSample⟩ "glucose" 0 "" none none
        = (⟨true, false, corpusSample⟩, SearchOutcome.warnEmptyQuery)
      ∨ searchStep ⟨true, false, corpusSample⟩ "glucose" 0 "" none none
        = (⟨true, false, corpusSample⟩, SearchOutcome.errorLimit)) :=
  ⟨(search_validation ⟨true, false, []⟩ "  " 5 "" none none).1 (by decide),
   (search_validation ⟨true, false, corpusSample⟩ "glucose" 0 "" none none).2 rfl⟩

/-- C5: an empty title makes the Index handler warn; no document is added,
the store is unchanged and no doc_id is assigned; conversely a batch is
indexed only under a non-empty title. -/
theorem index_empty_title (files : List (String × String)) (tss : List String)
    (pid : String) (date : Int) (s : List Doc) (hf : files ≠ []) :
    indexBatch files tss "" pid date s = (s, IndexOutcome.warnEmptyTitle)
    ∧ ∀ title s' ids, indexBatch files tss title pid date s = (s', IndexOutcome.ok ids)
        → title ≠ "" := by
  constructor
  · simp [indexBatch, hf]
  · intro title s' ids h htitle
    subst htitle
    simp [indexBatch, hf] at h

/-- C5 witness: indexing one uploaded file with an empty title leaves the
empty store unchanged and reports the empty-title warning. -/
theorem index_empty_title_witness :
    indexBatch [("report.txt", "some text")] ["20240101120000000000"] "" "P1" 0 []
      = ([], IndexOutcome.warnEmptyTitle) :=
  (index_empty_title [("report.txt", "some text")] ["20240101120000000000"]
      "P1" 0 [] (by decide)).1

/-- Helper: the character data of an appended string is the appended
character data. -/
theorem string_data_append (s t : String) : (s ++ t).data = s.data ++ t.data := by
  cases s with
  | mk a =>
    cases t with
    | mk b => rfl

/-- Helper: the character data of a constructed doc_id splits at the
underscore separator. -/
theorem mkDocId_data (f t : String) :
    (mkDocId f t).data = (f.data ++ ['_']) ++ t.data := by
  rw [mkDocId, string_data_append, string_data_append]

/-- Helper: doc_ids built from equal-length distinct timestamps differ,
whatever the file names. -/
theorem mkDocId_inj (f1 f2 t1 t2 : String) (hlen : t1.length = t2.length)
    (h : mkDocId f1 t1 = mkDocId f2 t2) : t1 = t2 := by
  cases t1 with
  | mk d1 =>
    cases t2 with
    | mk d2 =>
      have hd := congrArg String.data h
      rw [mkDocId_data, mkDocId_data] at hd
      have hl : d1.length = d2.length := hlen
      have h2 := (List.append_inj' hd hl).2
      exact congrArg String.mk (by simpa using h2)

/-- C6: over the store's lifetime, every indexing call draws a fresh
timestamp (the 20-digit `strftime("%Y%m%d%H%M%S%f")` clock, modelled as
pairwise-distinct 20-character strings), so all assigned doc_ids are
pairwise distinct — in particular for repeated uploads of same-named files
— and a committed batch only appends to the store, so a doc_id is never
changed after assignment. -/
theorem docIds_unique (calls : List (String × String))
    (hlen : ∀ p ∈ calls, (p.2 : String).length = 20)
    (hdist : List.Pairwise (fun a b => a.2 ≠ b.2) calls) :
    List.Pairwise (fun a b => a ≠ b) (calls.map (fun p => mkDocId p.1 p.2))
    ∧ ∀ files tss title pid date s s' ids,
        indexBatch files tss title pid date s = (s', IndexOutcome.ok ids)
        → s' = s ++ batchDocs files tss title pid date := by
  constructor
  · rw [List.pairwise_map]
    refine List.Pairwise.imp_of_mem ?_ hdist
    intro a b ha hb hne heq
    exact hne (mkDocId_inj a.1 b.1 a.2 b.2 ((hlen a ha).trans (hlen b hb).symm) heq)
  · intro files tss title pid date s s' ids h
    by_cases hf : files = []
    · simp [indexBatch, hf] at h
    · by_cases ht : title = ""
      · simp [indexBatch, hf, ht] at h
      · simp only [indexBatch, if_neg hf, if_neg ht, Prod.mk.injEq] at h
        exact h.1.symm

/-- C6 witness: two uploads of the same file name in one batch, with the
clock advancing one microsecond between them, receive distinct doc_ids. -/
theorem docIds_unique_witness :
    List.Pairwise (fun a b => a ≠ b)
      (([("scan.pdf", "20240101120000000001"), ("scan.pdf", "20240101120000000002")]
          : List (String × String)).map (fun p => mkDocId p.1 p.2)) :=
  (docIds_unique
      [("scan.pdf", "20240101120000000001"), ("scan.pdf", "20240101120000000002")]
      (by decide) (by decide)).1

end MedSearch
